import Mathlib

/-!
Verification development for the support-specialist hint and feedback system.

Shallow embedding of the backend pipeline:
  - `src/backend/src/middleware/authMiddleware.ts`   (roles, authorization)
  - `src/backend/src/controllers/hintController.ts`  (create / list / mark-viewed)
  - `src/backend/src/controllers/progressController.ts` (view progress)
  - `src/backend/src/services/auditLogger.ts`        (audit append, swallow failures)
  - `src/backend/src/services/notificationService.ts` (socket directory, dispatch)

Conventions of the embedding:
  - The relational store (Prisma) is a record of lists; `findUnique` / `findFirst`
    become `List.find?`, `findMany` with an `orderBy` becomes filter + stable
    insertion sort, `create` appends, `update where id` maps over the list.
  - Timestamps (`new Date()`, Prisma `createdAt`) are `Nat` values passed in
    explicitly by the caller of each operation.
  - A request body field that may be absent is `Option String`; JavaScript
    truthiness of a string (`!s` is true for `undefined` and `""`) is `jsTruthy`.
  - Fallibility of the audit store write is an explicit `Bool` parameter
    (`auditOk`); a thrown storage error is the `false` case.
  - HTTP error responses become constructors of per-operation result types,
    with the spec taxonomy in comments (400 ValidationError, 403 ForbiddenError,
    404 NotFoundError).
-/

namespace SupportHints

/-- Roles from `UserRole` in `authMiddleware.ts`. -/
inductive UserRole
  | user
  | support_specialist
  | admin
deriving DecidableEq

/-- The string value of each role ('user' | 'support_specialist' | 'admin'). -/
def UserRole.toRoleString : UserRole → String
  | .user => "user"
  | .support_specialist => "support_specialist"
  | .admin => "admin"

/-- The authenticated actor attached to a request by `authenticateJWT`
(`req.user : { id, role }`). -/
structure ActorIdentity where
  id : String
  role : UserRole
deriving DecidableEq

/-- JavaScript truthiness of an optional string: `undefined` and `""` are falsy. -/
def jsTruthy : Option String → Bool
  | none => false
  | some s => !(s == "")

/-- JavaScript `a || b` on optional strings (left operand kept when truthy). -/
def jsOr (a b : Option String) : Option String :=
  if jsTruthy a then a else b

/-- JavaScript `x || null` on an optional string. -/
def jsStrOrNone (a : Option String) : Option String :=
  if jsTruthy a then a else none

/-- JavaScript `x || 'unknown'` on an optional string. -/
def jsOrUnknown (a : Option String) : String :=
  if jsTruthy a then a.getD "" else "unknown"

/-- A user row (`prisma.user`, the fields the controllers select). -/
structure UserRec where
  id : String
  username : String
deriving DecidableEq

/-- Status of a support request. -/
inductive SRStatus
  | OPEN
  | CLOSED
deriving DecidableEq

/-- A support-request row (`prisma.supportRequest`). -/
structure SupportRequest where
  id : String
  userId : String
  status : SRStatus
  createdAt : Nat
deriving DecidableEq

/-- Lifecycle status of a hint. -/
inductive HintStatus
  | UNREAD
  | VIEWED
deriving DecidableEq

/-- A hint row (`prisma.hint`). `sentById` / `sentByRole` are nullable in the
schema (the controller writes `req.user?.id || null`). -/
structure Hint where
  id : String
  userId : String
  supportRequestId : String
  stepId : String
  puzzleId : Option String
  message : String
  sentById : Option String
  sentByRole : Option UserRole
  status : HintStatus
  createdAt : Nat
  viewedAt : Option Nat
deriving DecidableEq

/-- A progress-log row (`prisma.progressLog`, selected fields). -/
structure ProgressLog where
  id : String
  userId : String
  stepId : String
  puzzleId : Option String
  status : String
  updatedAt : Nat
  details : String
deriving DecidableEq

/-- An audit-log row (`prisma.auditLog`). Metadata is modelled as key/value
pairs (the source serializes an object with `JSON.stringify`). -/
structure AuditEvent where
  actorId : String
  actorRole : String
  action : String
  targetUserId : Option String
  metadata : List (String × Option String)
  timestamp : Nat
deriving DecidableEq

/-- The relational store the controllers run against. -/
structure Store where
  users : List UserRec
  supportRequests : List SupportRequest
  hints : List Hint
  progressLogs : List ProgressLog
  auditLog : List AuditEvent
deriving DecidableEq

/-- `prisma.user.findUnique({ where: { id } })`. -/
def findUser (st : Store) (uid : String) : Option UserRec :=
  st.users.find? (fun u => u.id == uid)

/-- `prisma.supportRequest.findFirst({ where: { userId, status: 'OPEN' } })`. -/
def findOpenSupportRequest (st : Store) (uid : String) : Option SupportRequest :=
  st.supportRequests.find? (fun r => r.userId == uid && r.status == SRStatus.OPEN)

/-- `prisma.hint.findUnique({ where: { id } })`. -/
def findHintById (st : Store) (hid : String) : Option Hint :=
  st.hints.find? (fun h => h.id == hid)

/-- Ordering used by `orderBy: [{ createdAt: 'desc' }]` on hints. -/
def hintCreatedDesc (a b : Hint) : Prop :=
  b.createdAt ≤ a.createdAt

instance : DecidableRel hintCreatedDesc := fun _ _ => Nat.decLe _ _

instance : IsTotal Hint hintCreatedDesc :=
  ⟨fun a b => Nat.le_total b.createdAt a.createdAt⟩

instance : IsTrans Hint hintCreatedDesc :=
  ⟨fun _ _ _ h1 h2 => Nat.le_trans h2 h1⟩

/-- `prisma.hint.findMany({ where: { userId }, orderBy: [{ createdAt: 'desc' }] })`,
modelled as a stable sort of the rows matching the `where` clause. -/
def findHintsForUser (st : Store) (uid : String) : List Hint :=
  (st.hints.filter (fun h => h.userId == uid)).insertionSort hintCreatedDesc

/-- Ordering used by `orderBy: [{ updatedAt: 'desc' }]` on progress logs. -/
def progressUpdatedDesc (a b : ProgressLog) : Prop :=
  b.updatedAt ≤ a.updatedAt

instance : DecidableRel progressUpdatedDesc := fun _ _ => Nat.decLe _ _

instance : IsTotal ProgressLog progressUpdatedDesc :=
  ⟨fun a b => Nat.le_total b.updatedAt a.updatedAt⟩

instance : IsTrans ProgressLog progressUpdatedDesc :=
  ⟨fun _ _ _ h1 h2 => Nat.le_trans h2 h1⟩

/-- `prisma.progressLog.findMany({ where: { userId }, orderBy: [{ updatedAt: 'desc' }] })`. -/
def findProgressLogsForUser (st : Store) (uid : String) : List ProgressLog :=
  (st.progressLogs.filter (fun l => l.userId == uid)).insertionSort progressUpdatedDesc

/-! ### Audit logger (`services/auditLogger.ts`) -/

/-- Parameters of `logAuditEvent` (`AuditLogParams`). -/
structure AuditLogParams where
  actorId : String
  actorRole : String
  action : String
  targetUserId : Option String
  metadata : List (String × Option String)
deriving DecidableEq

/-- The row `logAuditEvent` asks the store to create, with the server-assigned
timestamp (`timestamp: new Date()`). -/
def mkAuditEvent (p : AuditLogParams) (now : Nat) : AuditEvent :=
  { actorId := p.actorId
    actorRole := p.actorRole
    action := p.action
    targetUserId := p.targetUserId
    metadata := p.metadata
    timestamp := now }

/-- The underlying `prisma.auditLog.create` call, which may throw; the thrown
case is the explicit `writeOk = false` outcome. -/
def auditStoreCreate (writeOk : Bool) (e : AuditEvent) (log : List AuditEvent) :
    Except String (List AuditEvent) :=
  if writeOk then .ok (log ++ [e]) else .error "audit store failure"

/-- `logAuditEvent`: attempts the store write; a storage error is caught and
only logged (`console.error`), never rethrown, so the function always returns
an audit log (the old one on failure). -/
def logAuditEvent (p : AuditLogParams) (now : Nat) (writeOk : Bool)
    (log : List AuditEvent) : List AuditEvent :=
  match auditStoreCreate writeOk (mkAuditEvent p now) log with
  | .ok newLog => newLog
  | .error _ => log

/-! ### Notification service (`services/notificationService.ts`) -/

/-- The payload pushed over a live connection (`NotificationPayload`). -/
structure NotificationPayload where
  type : String
  hintId : Option String
  message : String
  stepId : Option String
  puzzleId : Option String
  sentAt : Option Nat
deriving DecidableEq

/-- State of the notification service: whether `initializeSocket` ran (`io`),
the `userSocketMap` directory, the payloads emitted to sockets so far, and the
console lines logged so far. -/
structure NotifState where
  ioInitialized : Bool
  userSocketMap : List (String × List String)
  emitted : List (String × NotificationPayload)
  logs : List String
deriving DecidableEq

/-- `userSocketMap.get(userId)`. -/
def lookupSockets (m : List (String × List String)) (uid : String) :
    Option (List String) :=
  (m.find? (fun e => e.1 == uid)).map (fun e => e.2)

/-- `sendNotificationToUser`: no-op (plus a console line) when the socket
server is uninitialized or the user has no registered sockets; otherwise emits
the payload to every socket of the user. Never throws. -/
def sendNotificationToUser (uid : String) (p : NotificationPayload)
    (ns : NotifState) : NotifState :=
  if ns.ioInitialized then
    match lookupSockets ns.userSocketMap uid with
    | none =>
        { ns with logs := ns.logs ++
            ["User " ++ uid ++ " not connected. Notification not delivered in real-time."] }
    | some socks =>
        if socks.isEmpty then
          { ns with logs := ns.logs ++
              ["User " ++ uid ++ " not connected. Notification not delivered in real-time."] }
        else
          { ns with emitted := ns.emitted ++ socks.map (fun sid => (sid, p)) }
  else
    { ns with logs := ns.logs ++
        ["Socket.io not initialized. Cannot send notification."] }

/-! ### Controllers (`controllers/hintController.ts`, `controllers/progressController.ts`)

Every controller takes `req.user` as `Option ActorIdentity` (the routes run
`authenticateJWT` first, but the controllers themselves guard with `req.user?`),
the request data it reads, the timestamps and ids the store would assign, the
audit-store outcome `auditOk`, and the current state; it returns its HTTP
response as a result value together with the new state. -/

/-- The hint fields returned in the 201 body of `sendHintOrFeedback`. -/
structure HintPublic where
  id : String
  stepId : String
  puzzleId : Option String
  message : String
  sentAt : Nat
  status : HintStatus
deriving DecidableEq

/-- Responses of `sendHintOrFeedback`:
400 ValidationError, 404 NotFoundError, 403 ForbiddenError, 201 created. -/
inductive CreateHintResult
  | validationError
  | userNotFound
  | noOpenRequest
  | created (hint : HintPublic)
deriving DecidableEq

/-- `sendHintOrFeedback` (hintController.ts):
validate `stepId` / `message`, look up the target user, look up an OPEN
support request, create the hint (UNREAD, author stamped from `req.user`),
append the SEND_HINT audit event, dispatch the notification, respond 201. -/
def sendHintOrFeedback (user : Option ActorIdentity) (targetUserId : String)
    (stepId : String) (puzzleId : Option String) (message : String)
    (newHintId : String) (now : Nat) (auditOk : Bool)
    (st : Store) (ns : NotifState) : CreateHintResult × Store × NotifState :=
  if stepId = "" ∨ message = "" then (.validationError, st, ns)
  else
    match findUser st targetUserId with
    | none => (.userNotFound, st, ns)
    | some _ =>
      match findOpenSupportRequest st targetUserId with
      | none => (.noOpenRequest, st, ns)
      | some sr =>
        let hint : Hint :=
          { id := newHintId
            userId := targetUserId
            supportRequestId := sr.id
            stepId := stepId
            puzzleId := puzzleId
            message := message
            sentById := jsStrOrNone (user.map (fun u => u.id))
            sentByRole := user.map (fun u => u.role)
            status := .UNREAD
            createdAt := now
            viewedAt := none }
        let st1 : Store := { st with hints := st.hints ++ [hint] }
        let auditParams : AuditLogParams :=
          { actorId := jsOrUnknown (user.map (fun u => u.id))
            actorRole := jsOrUnknown (user.map (fun u => u.role.toRoleString))
            action := "SEND_HINT"
            targetUserId := some targetUserId
            metadata := [("hintId", some hint.id), ("supportRequestId", some sr.id),
                         ("stepId", some stepId), ("puzzleId", puzzleId)] }
        let st2 : Store :=
          { st1 with auditLog := logAuditEvent auditParams now auditOk st1.auditLog }
        let ns1 := sendNotificationToUser targetUserId
          ({ type := "HINT", hintId := some hint.id, message := message,
             stepId := some stepId, puzzleId := puzzleId, sentAt := some now }) ns
        (.created { id := hint.id, stepId := hint.stepId, puzzleId := hint.puzzleId,
                    message := hint.message, sentAt := hint.createdAt,
                    status := hint.status }, st2, ns1)

/-- The hint fields selected by `getUserHints` (note: `userId` is not selected). -/
structure HintView where
  id : String
  stepId : String
  puzzleId : Option String
  message : String
  status : HintStatus
  createdAt : Nat
  viewedAt : Option Nat
  sentById : Option String
  sentByRole : Option UserRole
deriving DecidableEq

/-- Projection applied by the `select` clause of `getUserHints`. -/
def Hint.toView (h : Hint) : HintView :=
  { id := h.id, stepId := h.stepId, puzzleId := h.puzzleId, message := h.message,
    status := h.status, createdAt := h.createdAt, viewedAt := h.viewedAt,
    sentById := h.sentById, sentByRole := h.sentByRole }

/-- Responses of `getUserHints`: 400 'User ID is required.', 200 with rows. -/
inductive ListHintsResult
  | missingUserId
  | ok (hints : List HintView)
deriving DecidableEq

/-- `getUserHints` (hintController.ts):
specialists and admins take the target from `req.query.userId`; any other
actor is scoped to `req.user?.id`. A falsy resolved id is a 400. Rows for the
resolved user are returned newest first, after a VIEW_HINT_LIST audit event. -/
def getUserHints (user : Option ActorIdentity) (queryUserId : Option String)
    (now : Nat) (auditOk : Bool) (st : Store) : ListHintsResult × Store :=
  let userId : Option String :=
    if user.map (fun u => u.role) = some .support_specialist
        ∨ user.map (fun u => u.role) = some .admin
    then queryUserId
    else user.map (fun u => u.id)
  if jsTruthy userId then
    let uid := userId.getD ""
    let rows := findHintsForUser st uid
    let auditParams : AuditLogParams :=
      { actorId := jsOrUnknown (user.map (fun u => u.id))
        actorRole := jsOrUnknown (user.map (fun u => u.role.toRoleString))
        action := "VIEW_HINT_LIST"
        targetUserId := some uid
        metadata := [] }
    let st1 : Store :=
      { st with auditLog := logAuditEvent auditParams now auditOk st.auditLog }
    (.ok (rows.map Hint.toView), st1)
  else (.missingUserId, st)

/-- Responses of `markHintAsViewed`: 404 NotFoundError, 403 ForbiddenError,
200 with `{ id, status, viewedAt }` of the updated hint. -/
inductive MarkViewedResult
  | hintNotFound
  | accessDenied
  | ok (id : String) (status : HintStatus) (viewedAt : Option Nat)
deriving DecidableEq

/-- `markHintAsViewed` (hintController.ts):
look up the hint; deny unless the actor is the hint's subject user or an
admin; unconditionally set status VIEWED and overwrite `viewedAt` with the
current time; append the VIEW_HINT audit event; respond 200. -/
def markHintAsViewed (user : Option ActorIdentity) (hintId : String)
    (now : Nat) (auditOk : Bool) (st : Store) : MarkViewedResult × Store :=
  match findHintById st hintId with
  | none => (.hintNotFound, st)
  | some hint =>
    if user.map (fun u => u.id) ≠ some hint.userId
        ∧ user.map (fun u => u.role) ≠ some .admin then
      (.accessDenied, st)
    else
      let st1 : Store := { st with hints := st.hints.map (fun h =>
        if h.id == hintId then { h with status := .VIEWED, viewedAt := some now }
        else h) }
      let auditParams : AuditLogParams :=
        { actorId := jsOrUnknown (user.map (fun u => u.id))
          actorRole := jsOrUnknown (user.map (fun u => u.role.toRoleString))
          action := "VIEW_HINT"
          targetUserId := some hint.userId
          metadata := [("hintId", some hint.id),
                       ("viewedAt", some (toString now))] }
      let st2 : Store :=
        { st1 with auditLog := logAuditEvent auditParams now auditOk st1.auditLog }
      (.ok hint.id .VIEWED (some now), st2)

/-- The progress-log fields selected by `getUserProgress`. -/
structure ProgressLogView where
  id : String
  stepId : String
  puzzleId : Option String
  status : String
  updatedAt : Nat
  details : String
deriving DecidableEq

/-- Projection applied by the `select` clause of `getUserProgress`. -/
def ProgressLog.toView (l : ProgressLog) : ProgressLogView :=
  { id := l.id, stepId := l.stepId, puzzleId := l.puzzleId, status := l.status,
    updatedAt := l.updatedAt, details := l.details }

/-- Responses of `getUserProgress`: 404 NotFoundError, 403 ForbiddenError
('No active support request for this user.'), 200 with the progress view. -/
inductive ViewProgressResult
  | userNotFound
  | noOpenRequest
  | ok (userId username : String) (supportRequestId : String) (srCreatedAt : Nat)
      (progressLogs : List ProgressLogView) (stuck : Option ProgressLogView)
deriving DecidableEq

/-- `getUserProgress` (progressController.ts):
look up the target user, require an OPEN support request, fetch the progress
logs newest first, compute the first STUCK entry, append the
VIEW_USER_PROGRESS audit event, respond 200. -/
def getUserProgress (user : Option ActorIdentity) (targetUserId : String)
    (now : Nat) (auditOk : Bool) (st : Store) : ViewProgressResult × Store :=
  match findUser st targetUserId with
  | none => (.userNotFound, st)
  | some u =>
    match findOpenSupportRequest st targetUserId with
    | none => (.noOpenRequest, st)
    | some sr =>
      let logs := findProgressLogsForUser st targetUserId
      let stuck := logs.find? (fun l => l.status == "STUCK")
      let auditParams : AuditLogParams :=
        { actorId := jsOrUnknown (user.map (fun x => x.id))
          actorRole := jsOrUnknown (user.map (fun x => x.role.toRoleString))
          action := "VIEW_USER_PROGRESS"
          targetUserId := some targetUserId
          metadata := [("supportRequestId", some sr.id),
                       ("viewedAt", some (toString now))] }
      let st1 : Store :=
        { st with auditLog := logAuditEvent auditParams now auditOk st.auditLog }
      (.ok u.id u.username sr.id sr.createdAt (logs.map ProgressLog.toView)
        (stuck.map ProgressLog.toView), st1)

/-! ### Authorization middleware (`middleware/authMiddleware.ts`) -/

/-- Outcome of an authorization middleware: call `next()` or respond 403. -/
inductive AuthDecision
  | allow
  | deny
deriving DecidableEq

/-- `authorizeUserOrSupportSpecialist`:
allow specialists and admins outright; otherwise compute
`req.params.userId || req.body.userId` and allow when it is truthy and equals
the actor's own id, or when it is falsy and the actor's role is USER;
otherwise respond 403 'Access denied.'. -/
def authorizeUserOrSupportSpecialist (user : Option ActorIdentity)
    (paramsUserId bodyUserId : Option String) : AuthDecision :=
  if user.map (fun u => u.role) = some .support_specialist
      ∨ user.map (fun u => u.role) = some .admin then .allow
  else
    let userIdParam := jsOr paramsUserId bodyUserId
    if jsTruthy userIdParam ∧ user.map (fun u => u.id) = userIdParam then .allow
    else if ¬ jsTruthy userIdParam ∧ user.map (fun u => u.role) = some .user then
      .allow
    else .deny

/-- Result of a routed request: 403 from the middleware, or the controller's
response. -/
inductive RouteResult (α : Type)
  | denied
  | handled (r : α)
deriving DecidableEq

/-- The `GET /hint` route (routes file): `authenticateJWT`, then
`authorizeUserOrSupportSpecialist`, then `getUserHints`. The route declares no
`:userId` path parameter, so on this route `paramsUserId` is `none` for real
requests; it is kept as an argument because the middleware reads it. The
controller runs only when the middleware allows. -/
def listHintsRoute (user : Option ActorIdentity)
    (paramsUserId bodyUserId queryUserId : Option String)
    (now : Nat) (auditOk : Bool) (st : Store) :
    RouteResult ListHintsResult × Store :=
  match authorizeUserOrSupportSpecialist user paramsUserId bodyUserId with
  | .deny => (.denied, st)
  | .allow =>
      let r := getUserHints user queryUserId now auditOk st
      (.handled r.1, r.2)

/-! ### Concrete fixtures used by witnesses and counterexamples -/

/-- A store with user u1 (who has an OPEN support request r1) and user u2
(whose only support request r2 is CLOSED). -/
def st0 : Store :=
  { users := [{ id := "u1", username := "alice" }, { id := "u2", username := "bob" }]
    supportRequests :=
      [{ id := "r1", userId := "u1", status := .OPEN, createdAt := 0 },
       { id := "r2", userId := "u2", status := .CLOSED, createdAt := 0 }]
    hints := []
    progressLogs := []
    auditLog := [] }

/-- A notification state where u1 has one live socket. -/
def ns0 : NotifState :=
  { ioInitialized := true
    userSocketMap := [("u1", ["sockA"])]
    emitted := []
    logs := [] }

/-! ### C1 -/

/-- C1: for every CreateHint invocation, an empty stepId or message fails with
ValidationError (400); otherwise a missing target user fails with
NotFoundError (404); otherwise the absence of an OPEN SupportRequest for the
target fails with ForbiddenError (403); and in each failure case the returned
state is exactly the input state, so no Hint record is created (and no audit
event or notification is produced either). -/
theorem createHint_failure_paths
    (user : Option ActorIdentity) (target stepId : String) (puzzleId : Option String)
    (message newHintId : String) (now : Nat) (auditOk : Bool)
    (st : Store) (ns : NotifState) :
    ((stepId = "" ∨ message = "") →
      sendHintOrFeedback user target stepId puzzleId message newHintId now auditOk st ns
        = (.validationError, st, ns)) ∧
    (¬ (stepId = "" ∨ message = "") → findUser st target = none →
      sendHintOrFeedback user target stepId puzzleId message newHintId now auditOk st ns
        = (.userNotFound, st, ns)) ∧
    (∀ u, ¬ (stepId = "" ∨ message = "") → findUser st target = some u →
      findOpenSupportRequest st target = none →
      sendHintOrFeedback user target stepId puzzleId message newHintId now auditOk st ns
        = (.noOpenRequest, st, ns)) := by
  refine ⟨?_, ?_, ?_⟩
  · intro h
    simp only [sendHintOrFeedback, if_pos h]
  · intro h hu
    simp only [sendHintOrFeedback, if_neg h, hu]
  · intro u h hu hsr
    simp only [sendHintOrFeedback, if_neg h, hu, hsr]

/-- C1 witness: the three failure paths hit on concrete inputs (empty stepId;
unknown target user "zz"; user "u2" whose only support request is CLOSED). -/
theorem createHint_failure_paths_witness :
    (sendHintOrFeedback (some ⟨"s1", .support_specialist⟩) "u1" "" none "msg" "h1" 5 true st0 ns0
      = (.validationError, st0, ns0)) ∧
    (sendHintOrFeedback (some ⟨"s1", .support_specialist⟩) "zz" "step-1" none "msg" "h1" 5 true st0 ns0
      = (.userNotFound, st0, ns0)) ∧
    (sendHintOrFeedback (some ⟨"s1", .support_specialist⟩) "u2" "step-1" none "msg" "h1" 5 true st0 ns0
      = (.noOpenRequest, st0, ns0)) :=
  ⟨(createHint_failure_paths _ _ _ _ _ _ _ _ _ _).1 (Or.inl rfl),
   (createHint_failure_paths _ _ _ _ _ _ _ _ _ _).2.1 (by decide) (by decide),
   (createHint_failure_paths _ _ _ _ _ _ _ _ _ _).2.2 { id := "u2", username := "bob" }
     (by decide) (by decide) (by decide)⟩

/-! ### C2 -/

/-- The LIST_OWN_HINTS access rule exactly as the specification words it:
allow iff the actor's role is SUPPORT_SPECIALIST or ADMIN, or the role is
USER and no explicit target user id was supplied. Stated from the spec, to be
compared with `authorizeUserOrSupportSpecialist` (which is from the source). -/
def listOwnHintsSpecAllows (actor : ActorIdentity) (requestedTarget : Option String) : Bool :=
  actor.role == .support_specialist || actor.role == .admin ||
    (actor.role == .user && requestedTarget == none)

/-- C2 counterexample: a USER actor who supplies their own id as the target
(body `userId = "u1"` on the GET /hint route, which has no path parameter) is
allowed by `authorizeUserOrSupportSpecialist`, while the claim requires every
USER request with an explicit target — including their own id — to be denied. -/
theorem listOwnHints_policy_counterexample :
    authorizeUserOrSupportSpecialist (some ⟨"u1", .user⟩) none (some "u1") = .allow ∧
    listOwnHintsSpecAllows ⟨"u1", .user⟩ (some "u1") = false := by
  decide

/-- C2 (amended): the middleware decision for an authenticated actor allows
iff the role is SUPPORT_SPECIALIST or ADMIN, or the role is USER and the
effective supplied target (`params.userId || body.userId`, with an empty
string counting as absent) is either absent or equal to the actor's own id.
In particular a USER supplying their own id is allowed, and a USER supplying
a different non-empty id is denied. -/
theorem authorizeUserOrSupportSpecialist_characterization
    (actor : ActorIdentity) (paramsUserId bodyUserId : Option String) :
    authorizeUserOrSupportSpecialist (some actor) paramsUserId bodyUserId = .allow ↔
      (actor.role = .support_specialist ∨ actor.role = .admin ∨
        (actor.role = .user ∧
          (jsTruthy (jsOr paramsUserId bodyUserId) = false
            ∨ jsOr paramsUserId bodyUserId = some actor.id))) := by
  obtain ⟨aid, arole⟩ := actor
  cases arole with
  | support_specialist => simp [authorizeUserOrSupportSpecialist]
  | admin => simp [authorizeUserOrSupportSpecialist]
  | user =>
    simp only [authorizeUserOrSupportSpecialist, Option.map_some']
    rw [if_neg (by simp)]
    by_cases ht : jsTruthy (jsOr paramsUserId bodyUserId) = true
    · by_cases he : (some aid : Option String) = jsOr paramsUserId bodyUserId
      · rw [if_pos ⟨ht, he⟩]
        simp [ht, he.symm]
      · rw [if_neg (fun h => he h.2), if_neg (fun h => h.1 ht)]
        simp only [Bool.not_eq_true] at *
        constructor
        · intro h
          exact absurd h (by simp)
        · rintro (h | h | ⟨_, h | h⟩)
          · exact absurd h (by simp)
          · exact absurd h (by simp)
          · exact absurd h (by simp [ht])
          · exact absurd h.symm he
    · simp only [Bool.not_eq_true] at ht
      rw [if_neg (fun h => by simp [ht] at h)]
      simp [ht]

/-! ### C10 -/

/-- C10: on the list-hints route, a USER actor whose request carries a userId
(route param or body, per `params.userId || body.userId`; a non-empty value,
since JavaScript treats an empty string as absent) different from their own id
is rejected by the middleware with 403 before the controller runs: the store
is returned unchanged, so no query and no audit write happen. -/
theorem userMismatch_rejected_before_controller
    (actor : ActorIdentity) (paramsUserId bodyUserId queryUserId : Option String)
    (t : String) (now : Nat) (auditOk : Bool) (st : Store) :
    actor.role = .user → jsOr paramsUserId bodyUserId = some t → t ≠ "" → t ≠ actor.id →
    listHintsRoute (some actor) paramsUserId bodyUserId queryUserId now auditOk st
      = (.denied, st) := by
  intro hrole hjs hne hneid
  have htr : jsTruthy (jsOr paramsUserId bodyUserId) = true := by
    rw [hjs]; simp [jsTruthy, hne]
  have hd : authorizeUserOrSupportSpecialist (some actor) paramsUserId bodyUserId = .deny := by
    simp only [authorizeUserOrSupportSpecialist, Option.map_some', hrole]
    rw [if_neg (by simp), if_neg, if_neg]
    · intro h
      exact absurd h.1 (by simp [htr])
    · intro h
      rw [hjs] at h
      exact hneid (Option.some_injective _ h.2).symm
  simp [listHintsRoute, hd]

/-- C10 witness: user "u1" sending body `userId = "u2"` on GET /hint is
denied and the store is untouched. -/
theorem userMismatch_rejected_before_controller_witness :
    listHintsRoute (some ⟨"u1", .user⟩) none (some "u2") none 5 true st0 = (.denied, st0) :=
  userMismatch_rejected_before_controller ⟨"u1", .user⟩ none (some "u2") none "u2" 5 true st0
    rfl rfl (by decide) (by decide)

/-! ### C3 -/

/-- An UNREAD hint for u1, authored by specialist s1. -/
def hintH1 : Hint :=
  { id := "h1", userId := "u1", supportRequestId := "r1", stepId := "step-3",
    puzzleId := none, message := "try the left lever", sentById := some "s1",
    sentByRole := some .support_specialist, status := .UNREAD, createdAt := 1,
    viewedAt := none }

/-- `st0` with `hintH1` stored. -/
def stWithHint : Store := { st0 with hints := [hintH1] }

/-- A notification state whose socket server was never initialized. -/
def nsDead : NotifState :=
  { ioInitialized := false, userSocketMap := [], emitted := [], logs := [] }

/-- C3 counterexample: the claim demands exactly one AuditEvent per invocation
whether it succeeds or is rejected. A rejected CreateHint (empty message)
appends none, because every rejection path returns before `logAuditEvent`;
and even a successful CreateHint appends none when the audit-store write
throws (the failure is swallowed). -/
theorem audit_per_invocation_counterexample :
    ((sendHintOrFeedback (some ⟨"s1", .support_specialist⟩) "u1" "step-3" none "" "h1" 5
        true st0 ns0).2.1.auditLog.length ≠ st0.auditLog.length + 1) ∧
    ((sendHintOrFeedback (some ⟨"s1", .support_specialist⟩) "u1" "step-3" none "try" "h1" 5
        false st0 ns0).2.1.auditLog.length ≠ st0.auditLog.length + 1) := by
  decide

/-- C3 (amended): every successful CreateHint, ListHints, MarkViewed, or
ViewProgress invocation appends exactly one AuditEvent, with action tag
SEND_HINT, VIEW_HINT_LIST, VIEW_HINT, or VIEW_USER_PROGRESS respectively,
provided the audit-store write succeeds; for CreateHint the store outcome
(hints and audit log) is independent of the notification state, so it holds
regardless of whether the dispatch succeeds or fails. Rejected invocations
return before the audit call and append none. -/
theorem audit_exactly_one_on_success :
    (∀ user target stepId puzzleId message newHintId now st ns,
      stepId ≠ "" → message ≠ "" →
      (findUser st target).isSome = true →
      (findOpenSupportRequest st target).isSome = true →
      ∃ e, (sendHintOrFeedback user target stepId puzzleId message newHintId now true
              st ns).2.1.auditLog = st.auditLog ++ [e] ∧ e.action = "SEND_HINT") ∧
    (∀ user target stepId puzzleId message newHintId now aok st ns ns2,
      (sendHintOrFeedback user target stepId puzzleId message newHintId now aok st ns).2.1
        = (sendHintOrFeedback user target stepId puzzleId message newHintId now aok st ns2).2.1) ∧
    (∀ user queryUserId now st hs st2,
      getUserHints user queryUserId now true st = (.ok hs, st2) →
      ∃ e, st2.auditLog = st.auditLog ++ [e] ∧ e.action = "VIEW_HINT_LIST") ∧
    (∀ user hid now st i s v st2,
      markHintAsViewed user hid now true st = (.ok i s v, st2) →
      ∃ e, st2.auditLog = st.auditLog ++ [e] ∧ e.action = "VIEW_HINT") ∧
    (∀ user target now st a b c d ls stuck st2,
      getUserProgress user target now true st = (.ok a b c d ls stuck, st2) →
      ∃ e, st2.auditLog = st.auditLog ++ [e] ∧ e.action = "VIEW_USER_PROGRESS") := by
  refine ⟨?_, ?_, ?_, ?_, ?_⟩
  · intro user target stepId puzzleId message newHintId now st ns hstep hmsg hu hsr
    obtain ⟨u, hu⟩ := Option.isSome_iff_exists.mp hu
    obtain ⟨sr, hsr⟩ := Option.isSome_iff_exists.mp hsr
    simp only [sendHintOrFeedback, hu, hsr, logAuditEvent, auditStoreCreate, if_true,
      if_neg (not_or.mpr ⟨hstep, hmsg⟩)]
    exact ⟨_, rfl, rfl⟩
  · intro user target stepId puzzleId message newHintId now aok st ns ns2
    by_cases hv : (stepId = "" ∨ message = "")
    · simp [sendHintOrFeedback, hv]
    · cases hfu : findUser st target with
      | none => simp [sendHintOrFeedback, hv, hfu]
      | some u =>
        cases hsr : findOpenSupportRequest st target with
        | none => simp [sendHintOrFeedback, hv, hfu, hsr]
        | some sr => simp [sendHintOrFeedback, hv, hfu, hsr]
  · intro user queryUserId now st hs st2 h
    rw [getUserHints] at h
    split at h <;> split at h
    · simp only [Prod.mk.injEq] at h
      obtain ⟨-, h2⟩ := h
      subst h2
      simp only [logAuditEvent, auditStoreCreate, if_true]
      exact ⟨_, rfl, rfl⟩
    · simp at h
    · simp only [Prod.mk.injEq] at h
      obtain ⟨-, h2⟩ := h
      subst h2
      simp only [logAuditEvent, auditStoreCreate, if_true]
      exact ⟨_, rfl, rfl⟩
    · simp at h
  · intro user hid now st i s v st2 h
    rw [markHintAsViewed] at h
    split at h
    · simp at h
    · split at h
      · simp at h
      · simp only [Prod.mk.injEq] at h
        obtain ⟨-, h2⟩ := h
        subst h2
        simp only [logAuditEvent, auditStoreCreate, if_true]
        exact ⟨_, rfl, rfl⟩
  · intro user target now st a b c d ls stuck st2 h
    rw [getUserProgress] at h
    split at h
    · simp at h
    · split at h
      · simp at h
      · simp only [Prod.mk.injEq] at h
        obtain ⟨-, h2⟩ := h
        subst h2
        simp only [logAuditEvent, auditStoreCreate, if_true]
        exact ⟨_, rfl, rfl⟩

/-- C3 witness: concrete successful runs of all four operations append one
audit event each, and the CreateHint store outcome is the same with a live
socket directory and with an uninitialized one. -/
theorem audit_exactly_one_on_success_witness :
    (∃ e, (sendHintOrFeedback (some ⟨"s1", .support_specialist⟩) "u1" "step-3" none "try"
            "h1" 5 true st0 ns0).2.1.auditLog = st0.auditLog ++ [e]
          ∧ e.action = "SEND_HINT") ∧
    ((sendHintOrFeedback (some ⟨"s1", .support_specialist⟩) "u1" "step-3" none "try"
        "h1" 5 true st0 ns0).2.1
      = (sendHintOrFeedback (some ⟨"s1", .support_specialist⟩) "u1" "step-3" none "try"
          "h1" 5 true st0 nsDead).2.1) ∧
    (∃ e, (getUserHints (some ⟨"u1", .user⟩) none 7 true st0).2.auditLog
            = st0.auditLog ++ [e] ∧ e.action = "VIEW_HINT_LIST") ∧
    (∃ e, (markHintAsViewed (some ⟨"u1", .user⟩) "h1" 9 true stWithHint).2.auditLog
            = stWithHint.auditLog ++ [e] ∧ e.action = "VIEW_HINT") ∧
    (∃ e, (getUserProgress (some ⟨"s1", .support_specialist⟩) "u1" 11 true st0).2.auditLog
            = st0.auditLog ++ [e] ∧ e.action = "VIEW_USER_PROGRESS") :=
  ⟨audit_exactly_one_on_success.1 (some ⟨"s1", .support_specialist⟩) "u1" "step-3" none
      "try" "h1" 5 st0 ns0 (by decide) (by decide) (by decide) (by decide),
   audit_exactly_one_on_success.2.1 (some ⟨"s1", .support_specialist⟩) "u1" "step-3" none
      "try" "h1" 5 true st0 ns0 nsDead,
   audit_exactly_one_on_success.2.2.1 (some ⟨"u1", .user⟩) none 7 st0 []
      (getUserHints (some ⟨"u1", .user⟩) none 7 true st0).2 rfl,
   audit_exactly_one_on_success.2.2.2.1 (some ⟨"u1", .user⟩) "h1" 9 stWithHint
      "h1" .VIEWED (some 9) (markHintAsViewed (some ⟨"u1", .user⟩) "h1" 9 true stWithHint).2 rfl,
   audit_exactly_one_on_success.2.2.2.2 (some ⟨"s1", .support_specialist⟩) "u1" 11 st0
      "u1" "alice" "r1" 0 [] none (getUserProgress (some ⟨"s1", .support_specialist⟩) "u1" 11 true st0).2 rfl⟩

/-! ### C4 -/

/-- C4: MarkViewed fails with NotFoundError (404) when no hint has the given
id; when the hint exists but the actor is neither the hint's subject user nor
an admin it fails with ForbiddenError (403) and the store — in particular the
hint's status and viewedAt — is returned unchanged; when the actor is the
subject user or an admin the update is performed (status VIEWED, viewedAt set
to the invocation time). -/
theorem markViewed_guards (user : Option ActorIdentity) (hid : String) (now : Nat)
    (aok : Bool) (st : Store) :
    (findHintById st hid = none →
      markHintAsViewed user hid now aok st = (.hintNotFound, st)) ∧
    (∀ h, findHintById st hid = some h →
      user.map (fun u => u.id) ≠ some h.userId →
      user.map (fun u => u.role) ≠ some .admin →
      markHintAsViewed user hid now aok st = (.accessDenied, st)) ∧
    (∀ h, findHintById st hid = some h →
      (user.map (fun u => u.id) = some h.userId ∨ user.map (fun u => u.role) = some .admin) →
      (markHintAsViewed user hid now aok st).1 = .ok h.id .VIEWED (some now) ∧
      (markHintAsViewed user hid now aok st).2.hints
        = st.hints.map (fun x =>
            if x.id == hid then { x with status := .VIEWED, viewedAt := some now }
            else x)) := by
  refine ⟨?_, ?_, ?_⟩
  · intro hn
    simp only [markHintAsViewed, hn]
  · intro h hf hid2 hrole
    simp only [markHintAsViewed, hf]
    rw [if_pos ⟨hid2, hrole⟩]
  · intro h hf hor
    have hcond : ¬(user.map (fun u => u.id) ≠ some h.userId
        ∧ user.map (fun u => u.role) ≠ some UserRole.admin) := by
      rcases hor with h1 | h1
      · exact fun hc => hc.1 h1
      · exact fun hc => hc.2 h1
    simp only [markHintAsViewed, hf]
    rw [if_neg hcond]
    exact ⟨rfl, rfl⟩

/-- C4 witness: unknown hint id is a 404; user u2 on u1's hint is a 403 with
the store untouched; user u1 on their own hint gets the update. -/
theorem markViewed_guards_witness :
    (markHintAsViewed (some ⟨"u1", .user⟩) "zz" 9 true stWithHint
      = (.hintNotFound, stWithHint)) ∧
    (markHintAsViewed (some ⟨"u2", .user⟩) "h1" 9 true stWithHint
      = (.accessDenied, stWithHint)) ∧
    ((markHintAsViewed (some ⟨"u1", .user⟩) "h1" 9 true stWithHint).1
      = .ok "h1" .VIEWED (some 9)) :=
  ⟨(markViewed_guards (some ⟨"u1", .user⟩) "zz" 9 true stWithHint).1 (by decide),
   (markViewed_guards (some ⟨"u2", .user⟩) "h1" 9 true stWithHint).2.1 hintH1
     (by decide) (by decide) (by decide),
   ((markViewed_guards (some ⟨"u1", .user⟩) "h1" 9 true stWithHint).2.2 hintH1
     (by decide) (Or.inl (by decide))).1⟩

/-! ### C5 -/

/-- C5 counterexample: an authorized specialist whose actor id is the empty
string (nothing in the middleware forbids an empty JWT subject) successfully
creates a hint, but the stored `sentById` is null — the source writes
`req.user?.id || null`, and `"" || null` is `null` — not the actor's id. -/
theorem createHint_sentById_empty_actor_counterexample :
    ((sendHintOrFeedback (some ⟨"", .support_specialist⟩) "u1" "step-3" none "m1" "h9" 7
        true st0 ns0).1
      = .created { id := "h9", stepId := "step-3", puzzleId := none, message := "m1",
                   sentAt := 7, status := .UNREAD }) ∧
    ((sendHintOrFeedback (some ⟨"", .support_specialist⟩) "u1" "step-3" none "m1" "h9" 7
        true st0 ns0).2.1.hints.map Hint.sentById = [none]) ∧
    ((none : Option String) ≠ some (ActorIdentity.mk "" .support_specialist).id) := by
  decide

/-- C5 (amended): every successful CreateHint invocation by an actor with a
non-empty id appends exactly one Hint whose status is UNREAD, whose sentById
and sentByRole are the actor's id and role, whose supportRequestId is the id
of the OPEN SupportRequest found for the target user, and whose subject is
the target user (when the actor id is the empty string, sentById is stored as
null instead, a consequence of the `|| null` fallback). -/
theorem createHint_success_fields (actor : ActorIdentity) (target stepId : String)
    (puzzleId : Option String) (message newHintId : String) (now : Nat) (aok : Bool)
    (st : Store) (ns : NotifState) (u : UserRec) (sr : SupportRequest) :
    stepId ≠ "" → message ≠ "" → actor.id ≠ "" →
    findUser st target = some u → findOpenSupportRequest st target = some sr →
    ∃ h : Hint,
      (sendHintOrFeedback (some actor) target stepId puzzleId message newHintId now aok
        st ns).2.1.hints = st.hints ++ [h] ∧
      (sendHintOrFeedback (some actor) target stepId puzzleId message newHintId now aok
        st ns).1 = .created { id := newHintId, stepId := stepId, puzzleId := puzzleId,
                              message := message, sentAt := now, status := .UNREAD } ∧
      h.status = .UNREAD ∧ h.sentById = some actor.id ∧ h.sentByRole = some actor.role ∧
      h.supportRequestId = sr.id ∧ h.userId = target := by
  intro hstep hmsg haid hu hsr
  refine ⟨{ id := newHintId, userId := target, supportRequestId := sr.id, stepId := stepId,
            puzzleId := puzzleId, message := message,
            sentById := jsStrOrNone (some actor.id), sentByRole := some actor.role,
            status := .UNREAD, createdAt := now, viewedAt := none }, ?_, ?_, rfl, ?_, rfl,
          rfl, rfl⟩
  · simp only [sendHintOrFeedback, if_neg (not_or.mpr ⟨hstep, hmsg⟩), hu, hsr]
    rfl
  · simp only [sendHintOrFeedback, if_neg (not_or.mpr ⟨hstep, hmsg⟩), hu, hsr]
  · simp [jsStrOrNone, jsTruthy, haid]

/-- C5 witness: specialist s1 sends a hint to u1 and all stamped fields are
as amended. -/
theorem createHint_success_fields_witness :
    ∃ h : Hint,
      (sendHintOrFeedback (some ⟨"s1", .support_specialist⟩) "u1" "step-3" none "try" "h1"
        5 true st0 ns0).2.1.hints = st0.hints ++ [h] ∧
      (sendHintOrFeedback (some ⟨"s1", .support_specialist⟩) "u1" "step-3" none "try" "h1"
        5 true st0 ns0).1 = .created { id := "h1", stepId := "step-3", puzzleId := none,
                                       message := "try", sentAt := 5, status := .UNREAD } ∧
      h.status = .UNREAD ∧ h.sentById = some "s1" ∧
      h.sentByRole = some .support_specialist ∧
      h.supportRequestId = "r1" ∧ h.userId = "u1" :=
  createHint_success_fields ⟨"s1", .support_specialist⟩ "u1" "step-3" none "try" "h1" 5
    true st0 ns0 { id := "u1", username := "alice" }
    { id := "r1", userId := "u1", status := .OPEN, createdAt := 0 }
    (by decide) (by decide) (by decide) (by decide) (by decide)

/-! ### C6 -/

/-- C6: MarkViewed enforces no idempotency — an authorized re-invocation on a
hint whose status is already VIEWED again sets status VIEWED and overwrites
viewedAt with the new invocation time; the returned viewedAt is the new
timestamp, not the hint's stored (original) one. -/
theorem markViewed_not_idempotent (user : Option ActorIdentity) (hid : String)
    (now now0 : Nat) (aok : Bool) (st : Store) (h : Hint) :
    findHintById st hid = some h → h.status = .VIEWED → h.viewedAt = some now0 →
    now0 ≠ now →
    (user.map (fun u => u.id) = some h.userId ∨ user.map (fun u => u.role) = some .admin) →
    (markHintAsViewed user hid now aok st).1 = .ok h.id .VIEWED (some now) ∧
    (markHintAsViewed user hid now aok st).2.hints
      = st.hints.map (fun x =>
          if x.id == hid then { x with status := .VIEWED, viewedAt := some now }
          else x) ∧
    (some now : Option Nat) ≠ h.viewedAt := by
  intro hf hst hv hne hor
  have hcond : ¬(user.map (fun u => u.id) ≠ some h.userId
      ∧ user.map (fun u => u.role) ≠ some UserRole.admin) := by
    rcases hor with h1 | h1
    · exact fun hc => hc.1 h1
    · exact fun hc => hc.2 h1
  simp only [markHintAsViewed, hf]
  rw [if_neg hcond]
  refine ⟨rfl, rfl, ?_⟩
  rw [hv]
  exact fun hc => hne (Option.some_injective _ hc).symm

/-- An already-VIEWED hint for u1 (viewed at time 3). -/
def hintViewed : Hint :=
  { hintH1 with id := "h2", status := .VIEWED, viewedAt := some 3 }

/-- `st0` with the already-VIEWED `hintViewed` stored. -/
def stViewed : Store := { st0 with hints := [hintViewed] }

/-- C6 witness: u1 re-marks their already-VIEWED hint at time 9; the result
reports viewedAt 9, the store overwrites viewedAt, and 9 is not the stored 3. -/
theorem markViewed_not_idempotent_witness :
    ((markHintAsViewed (some ⟨"u1", .user⟩) "h2" 9 true stViewed).1
      = .ok "h2" .VIEWED (some 9)) ∧
    ((markHintAsViewed (some ⟨"u1", .user⟩) "h2" 9 true stViewed).2.hints
      = stViewed.hints.map (fun x =>
          if x.id == "h2" then { x with status := .VIEWED, viewedAt := some 9 }
          else x)) ∧
    ((some 9 : Option Nat) ≠ hintViewed.viewedAt) :=
  markViewed_not_idempotent (some ⟨"u1", .user⟩) "h2" 9 3 true stViewed hintViewed
    (by decide) (by decide) (by decide) (by decide) (Or.inl (by decide))

/-! ### C7 -/

/-- C7: for a USER actor, ListHints resolves the target to the actor's own id
— the result is independent of any supplied target parameter — so every
returned row comes from a stored Hint whose userId is the actor's id, and the
returned sequence is ordered by creation time descending (newest first). -/
theorem getUserHints_user_scoped_sorted (actor : ActorIdentity) (q : Option String)
    (now : Nat) (aok : Bool) (st : Store) (vs : List HintView) (st2 : Store) :
    actor.role = .user →
    getUserHints (some actor) q now aok st = (.ok vs, st2) →
    (∀ q2, getUserHints (some actor) q2 now aok st
      = getUserHints (some actor) q now aok st) ∧
    (∀ v ∈ vs, ∃ h, h ∈ st.hints ∧ h.userId = actor.id ∧ v = h.toView) ∧
    vs.Pairwise (fun a b => b.createdAt ≤ a.createdAt) := by
  intro hrole hrun
  have hcond : ¬((some actor : Option ActorIdentity).map (fun u => u.role)
        = some UserRole.support_specialist
      ∨ (some actor : Option ActorIdentity).map (fun u => u.role)
        = some UserRole.admin) := by
    simp [hrole]
  refine ⟨?_, ?_⟩
  · intro q2
    simp only [getUserHints]
    rw [if_neg hcond, if_neg hcond]
  · rw [getUserHints] at hrun
    rw [if_neg hcond] at hrun
    split at hrun
    · simp only [Prod.mk.injEq, ListHintsResult.ok.injEq] at hrun
      obtain ⟨h1, -⟩ := hrun
      subst h1
      constructor
      · intro v hv
        obtain ⟨h, hmem, hview⟩ := List.mem_map.mp hv
        refine ⟨h, ?_, ?_, hview.symm⟩
        · have : h ∈ (st.hints.filter
              (fun x => x.userId == ((some actor : Option ActorIdentity).map
                (fun u => u.id)).getD "")) :=
            (List.mem_insertionSort hintCreatedDesc).mp hmem
          exact (List.mem_filter.mp this).1
        · have : h ∈ (st.hints.filter
              (fun x => x.userId == ((some actor : Option ActorIdentity).map
                (fun u => u.id)).getD "")) :=
            (List.mem_insertionSort hintCreatedDesc).mp hmem
          have hb := (List.mem_filter.mp this).2
          simpa using hb
      · rw [List.pairwise_map]
        exact List.Pairwise.imp (fun hab => hab)
          (List.sorted_insertionSort hintCreatedDesc _)
    · simp at hrun

/-- A second hint of u1 created later than `hintH1` renamed for the listing
fixture. -/
def hintA : Hint := { hintH1 with id := "hA", createdAt := 1 }

/-- A newer hint of u1. -/
def hintB : Hint := { hintH1 with id := "hB", createdAt := 2 }

/-- A hint belonging to u2. -/
def hintC : Hint := { hintH1 with id := "hC", userId := "u2", createdAt := 5 }

/-- `st0` with u1's hints hA (older), hB (newer) and u2's hint hC stored. -/
def stMany : Store := { st0 with hints := [hintA, hintB, hintC] }

/-- C7 witness: user u1 lists hints while supplying target "u2"; the supplied
target is ignored, the rows are exactly u1's hints newest first, and hC (u2's)
is absent. -/
theorem getUserHints_user_scoped_sorted_witness :
    (getUserHints (some ⟨"u1", .user⟩) none 7 true stMany
      = getUserHints (some ⟨"u1", .user⟩) (some "u2") 7 true stMany) ∧
    (∃ h, h ∈ stMany.hints ∧ h.userId = "u1" ∧ hintB.toView = h.toView) ∧
    ([hintB.toView, hintA.toView].Pairwise
      (fun a b => b.createdAt ≤ a.createdAt)) := by
  have H := getUserHints_user_scoped_sorted ⟨"u1", .user⟩ (some "u2") 7 true stMany
    [hintB.toView, hintA.toView]
    (getUserHints (some ⟨"u1", .user⟩) (some "u2") 7 true stMany).2 rfl rfl
  exact ⟨H.1 none, H.2.1 hintB.toView (by decide), H.2.2⟩

/-! ### C8 -/

/-- C8: the audit Record operation never raises to its caller — a successful
store write appends the event, a thrown storage error is swallowed (the log
is returned unchanged after the failure is console-logged) — and each
business operation's result (its response, and for the mutating ones the
hints it stored, and for CreateHint the notification outcome) is the same
whether the audit write succeeds or fails. -/
theorem logAuditEvent_never_raises_business_unaffected :
    (∀ p now log, logAuditEvent p now true log = log ++ [mkAuditEvent p now]) ∧
    (∀ p now log, logAuditEvent p now false log = log) ∧
    (∀ user target stepId puzzleId message newHintId now st ns,
      (sendHintOrFeedback user target stepId puzzleId message newHintId now true st ns).1
        = (sendHintOrFeedback user target stepId puzzleId message newHintId now false st ns).1
      ∧ (sendHintOrFeedback user target stepId puzzleId message newHintId now true st ns).2.1.hints
        = (sendHintOrFeedback user target stepId puzzleId message newHintId now false st ns).2.1.hints
      ∧ (sendHintOrFeedback user target stepId puzzleId message newHintId now true st ns).2.2
        = (sendHintOrFeedback user target stepId puzzleId message newHintId now false st ns).2.2) ∧
    (∀ user q now st,
      (getUserHints user q now true st).1 = (getUserHints user q now false st).1
      ∧ (getUserHints user q now true st).2.hints = (getUserHints user q now false st).2.hints) ∧
    (∀ user hid now st,
      (markHintAsViewed user hid now true st).1 = (markHintAsViewed user hid now false st).1
      ∧ (markHintAsViewed user hid now true st).2.hints
        = (markHintAsViewed user hid now false st).2.hints) ∧
    (∀ user target now st,
      (getUserProgress user target now true st).1 = (getUserProgress user target now false st).1
      ∧ (getUserProgress user target now true st).2.hints
        = (getUserProgress user target now false st).2.hints) := by
  refine ⟨?_, ?_, ?_, ?_, ?_, ?_⟩
  · intro p now log
    simp [logAuditEvent, auditStoreCreate]
  · intro p now log
    simp [logAuditEvent, auditStoreCreate]
  · intro user target stepId puzzleId message newHintId now st ns
    by_cases hv : (stepId = "" ∨ message = "")
    · simp [sendHintOrFeedback, hv]
    · cases hfu : findUser st target with
      | none => simp [sendHintOrFeedback, hv, hfu]
      | some u =>
        cases hsr : findOpenSupportRequest st target with
        | none => simp [sendHintOrFeedback, hv, hfu, hsr]
        | some sr => simp [sendHintOrFeedback, hv, hfu, hsr]
  · intro user q now st
    simp only [getUserHints]
    by_cases hrole : (Option.map (fun u => u.role) user = some UserRole.support_specialist
        ∨ Option.map (fun u => u.role) user = some UserRole.admin)
    · rw [if_pos hrole]
      by_cases ht : jsTruthy q = true
      · simp [ht]
      · simp [ht]
    · rw [if_neg hrole]
      by_cases ht : jsTruthy (Option.map (fun u => u.id) user) = true
      · simp [ht]
      · simp [ht]
  · intro user hid now st
    cases hf : findHintById st hid with
    | none => simp [markHintAsViewed, hf]
    | some h =>
      by_cases hc : (user.map (fun u => u.id) ≠ some h.userId
          ∧ user.map (fun u => u.role) ≠ some UserRole.admin)
      · simp only [markHintAsViewed, hf]
        rw [if_pos hc, if_pos hc]
        exact ⟨rfl, rfl⟩
      · simp only [markHintAsViewed, hf]
        rw [if_neg hc, if_neg hc]
        exact ⟨rfl, rfl⟩
  · intro user target now st
    cases hfu : findUser st target with
    | none => simp [getUserProgress, hfu]
    | some u =>
      cases hsr : findOpenSupportRequest st target with
      | none => simp [getUserProgress, hfu, hsr]
      | some sr => simp [getUserProgress, hfu, hsr]

/-! ### C9 -/

/-- C9: Dispatch to a user with zero live connections — the directory has no
entry for the user, or an empty set, or the socket server is uninitialized —
returns normally, pushes to no connection, leaves the connection directory
and every other part of the notification state unchanged (so nothing is
queued, retried, or persisted for later delivery), and appends exactly one
console line (the "not delivered" warning, or the initialization error). -/
theorem dispatch_no_connections_noop (uid : String) (p : NotificationPayload)
    (ns : NotifState) :
    (lookupSockets ns.userSocketMap uid = none
      ∨ lookupSockets ns.userSocketMap uid = some []
      ∨ ns.ioInitialized = false) →
    (sendNotificationToUser uid p ns).emitted = ns.emitted ∧
    (sendNotificationToUser uid p ns).userSocketMap = ns.userSocketMap ∧
    (sendNotificationToUser uid p ns).ioInitialized = ns.ioInitialized ∧
    ∃ w, (sendNotificationToUser uid p ns).logs = ns.logs ++ [w] := by
  intro hcase
  cases hio : ns.ioInitialized with
  | false =>
    simp [sendNotificationToUser, hio]
  | true =>
    rcases hcase with h | h | h
    · simp [sendNotificationToUser, hio, h]
    · simp [sendNotificationToUser, hio, h]
    · rw [h] at hio
      cases hio

/-- The payload used by the dispatch witness. -/
def payload0 : NotificationPayload :=
  { type := "HINT", hintId := some "h1", message := "try", stepId := some "step-3",
    puzzleId := none, sentAt := some 5 }

/-- C9 witness: dispatching to u9, who has no entry in the directory of `ns0`,
changes nothing but the console log. -/
theorem dispatch_no_connections_noop_witness :
    (sendNotificationToUser "u9" payload0 ns0).emitted = ns0.emitted ∧
    (sendNotificationToUser "u9" payload0 ns0).userSocketMap = ns0.userSocketMap ∧
    (sendNotificationToUser "u9" payload0 ns0).ioInitialized = ns0.ioInitialized ∧
    ∃ w, (sendNotificationToUser "u9" payload0 ns0).logs = ns0.logs ++ [w] :=
  dispatch_no_connections_noop "u9" payload0 ns0 (Or.inl (by decide))

end SupportHints
